import Mathlib

set_option maxRecDepth 20000

unseal List.merge List.mergeSort

/-!
Shallow embedding of the release-tracking and notification engine of the
Telegram calendar bot (`main.py`), together with theorems checking the
natural-language specification against the code.

Conventions of the embedding:
* Python `datetime.date` values become the `Date` structure below, ordered
  lexicographically by (year, month, day), exactly as Python compares dates.
* `datetime.strptime(s, "%Y-%m-%d").date()` becomes `parseDate`.
* `timedelta(days = n)` addition becomes `addDays` (n-fold calendar successor).
* Python `set` iteration is modelled by lists: every theorem quantifies over
  the list, so any concrete iteration order of the Python set is covered.
* JSON numbers (TMDB `popularity`) are modelled as `Rat`; Python `int()`
  truncation toward zero is `ratTrunc`.
* Network calls (`fetch_json`) are modelled by provider functions returning
  `Except Unit _`; `.error ()` is a raised exception (timeout / non-2xx /
  malformed body), which propagates exactly as a Python exception does.
* Telegram message formatting (`html.escape`, emoji, bold tags) is abstracted:
  a line appended to `upcoming_series` / `upcoming_movies` is modelled by a
  structure holding the fields interpolated into the f-string.
-/

/-- Calendar date, as Python `datetime.date`: compared lexicographically. -/
structure Date where
  year : Nat
  month : Nat
  day : Nat
deriving DecidableEq, Repr

/-- Python date comparison `a <= b` (lexicographic on year, month, day). -/
def Date.le (a b : Date) : Bool :=
  if a.year ≠ b.year then decide (a.year < b.year)
  else if a.month ≠ b.month then decide (a.month < b.month)
  else decide (a.day ≤ b.day)

/-- Gregorian leap-year test, as Python `calendar`/`datetime` uses. -/
def isLeap (y : Nat) : Bool :=
  (y % 4 == 0 && y % 100 != 0) || (y % 400 == 0)

/-- Number of days of month `m` in year `y` (0 for an invalid month). -/
def daysInMonth (y m : Nat) : Nat :=
  if m = 1 ∨ m = 3 ∨ m = 5 ∨ m = 7 ∨ m = 8 ∨ m = 10 ∨ m = 12 then 31
  else if m = 4 ∨ m = 6 ∨ m = 9 ∨ m = 11 then 30
  else if m = 2 then (if isLeap y then 29 else 28)
  else 0

/-- Python `str.lower()` (character-wise, as the titles involved are
ASCII). -/
def pyLower (s : String) : String :=
  ⟨s.data.map Char.toLower⟩

/-- The characters Python `str.strip()` removes by default. -/
def isPySpace (c : Char) : Bool :=
  c = ' ' ∨ c = '\t' ∨ c = '\n' ∨ c = '\r' ∨ c = '\x0b' ∨ c = '\x0c'

/-- Python `str.strip()`. -/
def pyTrim (s : String) : String :=
  ⟨((s.data.dropWhile isPySpace).reverse.dropWhile isPySpace).reverse⟩

/-- Splitting a character list at every occurrence of `sep`, as Python
`str.split(sep)` (so the empty string yields `[""]`). -/
def splitChar (sep : Char) : List Char → List (List Char)
  | [] => [[]]
  | c :: rest =>
    match splitChar sep rest with
    | [] => [[]]
    | g :: gs => if c = sep then [] :: g :: gs else (c :: g) :: gs

/-- Python `str.split(sep)` for a one-character separator. -/
def pySplit (s : String) (sep : Char) : List String :=
  (splitChar sep s.data).map (fun cs => ⟨cs⟩)

/-- Decimal reading of a field of the date string: all characters must be
digits and the field non-empty, as `strptime` requires. -/
def digitsToNat (cs : List Char) : Option Nat :=
  if cs ≠ [] ∧ cs.all Char.isDigit then
    some (cs.foldl (fun acc c => acc * 10 + (c.toNat - 48)) 0)
  else none

/-- Embedding of `datetime.strptime(s, "%Y-%m-%d").date()`: split on the
dashes, read the three decimal fields, validate month and day ranges
(year range 1..9999 as `datetime.MINYEAR`/`MAXYEAR`).  `none` models the
`ValueError` that the source catches with `except Exception`. -/
def parseDate (s : String) : Option Date :=
  match splitChar '-' s.data with
  | [ys, ms, ds] =>
    match digitsToNat ys, digitsToNat ms, digitsToNat ds with
    | some y, some m, some d =>
      if 1 ≤ y ∧ y ≤ 9999 ∧ 1 ≤ m ∧ m ≤ 12 ∧ 1 ≤ d ∧ d ≤ daysInMonth y m then
        some ⟨y, m, d⟩
      else none
    | _, _, _ => none
  | _ => none

/-- Calendar successor of a date. -/
def nextDay (dt : Date) : Date :=
  if dt.day < daysInMonth dt.year dt.month then ⟨dt.year, dt.month, dt.day + 1⟩
  else if dt.month < 12 then ⟨dt.year, dt.month + 1, 1⟩
  else ⟨dt.year + 1, 1, 1⟩

/-- Embedding of `date + timedelta(days = n)`. -/
def addDays (dt : Date) : Nat → Date
  | 0 => dt
  | n + 1 => nextDay (addDays dt n)

/-- Python `int()` on a JSON number modelled as `Rat`: truncation toward 0. -/
def ratTrunc (q : Rat) : Int :=
  Int.tdiv q.num (Int.ofNat q.den)

/-- One element of a TMDB `seasons` array, with the two fields the code
reads.  `air_date` is `none` when the key is missing or JSON `null`;
`season_number` likewise.  Python truthiness of the string (`if air_date`)
is checked separately against the empty string. -/
structure TvSeason where
  air_date : Option String
  season_number : Option Nat
deriving DecidableEq, Repr

/-- TMDB TV detail record (`/tv/{id}`), restricted to the fields the code
reads.  `name` models `details.get('name', ...)` under the TMDB schema in
which `name` is always present; `popularity` is `none` when the key is
missing or null (the code applies `.get('popularity', 0) or 0`). -/
structure TvDetails where
  name : String
  seasons : List TvSeason
  popularity : Option Rat
  first_air_date : Option String
deriving DecidableEq, Repr

/-- TMDB movie search-result record, restricted to the fields the code reads. -/
structure TmdbMovie where
  title : String
  release_date : Option String
deriving DecidableEq, Repr

/-- The metadata provider as seen by the matching loops: a TV search
returns the ids of the result records (the code only reads `show['id']`
from the summary), a detail fetch resolves an id, and a movie search
returns the movie records directly.  `.error ()` models a raised
`aiohttp` / HTTP error on that one call. -/
structure Provider where
  searchTv : String → Except Unit (List Nat)
  tvDetails : Nat → Except Unit TvDetails
  searchMovie : String → Except Unit (List TmdbMovie)

/-- Season-scan of the `/series` handler (lines 560-571): walk the seasons
in provider order; the first one with a truthy `air_date`, a truthy
`season_number` (so season 0 is skipped) satisfying
`season_number == 1 or season_number > 1`, a parseable date, and
`now <= airdate_obj <= cutoff` is returned together with its air-date
string, and the loop `break`s; parse failures and out-of-window dates fall
through to the next season. -/
def seasonHit (today cutoff : Date) : List TvSeason → Option (Nat × String)
  | [] => none
  | s :: rest =>
    match s.air_date, s.season_number with
    | some ad, some sn =>
      if ad ≠ "" ∧ sn ≠ 0 ∧ (sn == 1 || sn > 1) then
        match parseDate ad with
        | some d =>
          if Date.le today d && Date.le d cutoff then some (sn, ad)
          else seasonHit today cutoff rest
        | none => seasonHit today cutoff rest
      else seasonHit today cutoff rest
    | _, _ => seasonHit today cutoff rest

/-- The tuple appended to `shows_to_display` (the trailing literal `True`
`force_highlight` component is dropped as constant). -/
structure Candidate where
  details : TvDetails
  show_type : String
  air_date : String
deriving DecidableEq, Repr

/-- Mapping from the accepted season number to the `show_type` string:
`'new' if season_number == 1 else f'season_{season_number}'`. -/
def showTypeOf (sn : Nat) : String :=
  if sn == 1 then "new" else "season_" ++ toString sn

/-- Processing of one TV detail record inside the `/series` loop: the
record is dropped unless `details.get('name').lower()` equals the tracked
entry exactly, then the season scan decides the candidate. -/
def processShow (today cutoff : Date) (highlight : String) (d : TvDetails) :
    Option Candidate :=
  if pyLower d.name ≠ highlight then none
  else
    match seasonHit today cutoff d.seasons with
    | some (sn, ad) => some ⟨d, showTypeOf sn, ad⟩
    | none => none

/-- Inner loop of `/series` over the search results of one tracked title:
each id is resolved by a detail fetch (whose failure propagates as an
exception) and contributes at most one candidate. -/
def matchShows (p : Provider) (today cutoff : Date) (highlight : String) :
    List Nat → Except Unit (List Candidate)
  | [] => .ok []
  | id :: rest =>
    match p.tvDetails id with
    | .error e => .error e
    | .ok d =>
      match matchShows p today cutoff highlight rest with
      | .error e => .error e
      | .ok cs =>
        match processShow today cutoff highlight d with
        | some c => .ok (c :: cs)
        | none => .ok cs

/-- Outer loop of `/series` over the tracked titles: one search per title,
then the per-show loop; any raised exception propagates (there is no
per-title `try`/`except` in the source). -/
def matchAll (p : Provider) (today cutoff : Date) :
    List String → Except Unit (List Candidate)
  | [] => .ok []
  | t :: rest =>
    match p.searchTv t with
    | .error e => .error e
    | .ok ids =>
      match matchShows p today cutoff t ids with
      | .error e => .error e
      | .ok cs =>
        match matchAll p today cutoff rest with
        | .error e => .error e
        | .ok more => .ok (cs ++ more)

/-- Deduplication key of the `/series` handler (line 576):
`(name.lower(), show_type, air_date)`. -/
def dedupKey (c : Candidate) : String × String × String :=
  (pyLower c.details.name, c.show_type, c.air_date)

/-- Embedding of the insertion-ordered dict `deduped`: a candidate is kept
iff its key was not seen before, in first-occurrence order. -/
def dedupeAux (seen : List (String × String × String)) :
    List Candidate → List Candidate
  | [] => []
  | c :: rest =>
    if dedupKey c ∈ seen then dedupeAux seen rest
    else c :: dedupeAux (dedupKey c :: seen) rest

/-- Deduplicated candidate list, as `list(deduped.values())`. -/
def dedupe (cs : List Candidate) : List Candidate :=
  dedupeAux [] cs

/-- First component of the sort key of the `/series` handler:
`-int(x[0].get('popularity', 0) or 0)`. -/
def popKey (c : Candidate) : Int :=
  - ratTrunc ((c.details.popularity).getD 0)

/-- Second component of the sort key:
`x[2] or x[0].get('first_air_date', '')` (the air-date string, falling
back to the detail record's first air date when empty). -/
def dateKey (c : Candidate) : String :=
  if c.air_date ≠ "" then c.air_date else (c.details.first_air_date).getD ""

/-- Lexicographic comparison of character lists by code point, as Python
compares strings. -/
def charListLe : List Char → List Char → Bool
  | [], _ => true
  | _ :: _, [] => false
  | a :: as, b :: bs =>
    if a.toNat < b.toNat then true
    else if b.toNat < a.toNat then false
    else charListLe as bs

/-- Python `<=` on strings (code-point lexicographic). -/
def strLe (a b : String) : Bool :=
  charListLe a.data b.data

/-- Comparison realised by Python `sorted` under the tuple key
`(-int(pop), date)`: lexicographic on the pair. -/
def candLe (a b : Candidate) : Bool :=
  popKey a < popKey b || (popKey a = popKey b && strLe (dateKey a) (dateKey b))

/-- Embedding of `sorted(deduped.values(), key = ...)`: a stable merge
sort under `candLe`, as CPython timsort is stable. -/
def sortCands (cs : List Candidate) : List Candidate :=
  cs.mergeSort candLe

/-- Whole-invocation result of the `/series` matcher: the loop body runs
inside one `try`/`except` (lines 541-612), so a raised provider error
yields the generic error reply — modelled as `none` — instead of any
candidate list; on success the deduplicated, sorted candidates are shown.
The lookahead of `/series` is 120 days. -/
def seriesResult (p : Provider) (titles : List String) (today : Date) :
    Option (List Candidate) :=
  match matchAll p today (addDays today 120) titles with
  | .error _ => none
  | .ok cs => some (sortCands (dedupe cs))

/-- One line appended to `upcoming_series` in `notify_releases` (the
fields interpolated into the f-string at line 469). -/
structure SeriesLine where
  name : String
  season_number : Nat
  air_date : String
deriving DecidableEq, Repr

/-- One line appended to `upcoming_movies` in `notify_releases` (line 488). -/
structure MovieLine where
  title : String
  release_date : String
deriving DecidableEq, Repr

/-- Season scan of `notify_releases` (lines 459-469): unlike `/series`,
the guard is only `if air_date and season_number` (no explicit
`== 1 or > 1` test) and there is NO `break` — every season whose date
parses and lies in the window produces its own line. -/
def notifySeasonLines (today cutoff : Date) (showName : String) :
    List TvSeason → List SeriesLine
  | [] => []
  | s :: rest =>
    match s.air_date, s.season_number with
    | some ad, some sn =>
      if ad ≠ "" ∧ sn ≠ 0 then
        match parseDate ad with
        | some d =>
          if Date.le today d && Date.le d cutoff then
            ⟨showName, sn, ad⟩ :: notifySeasonLines today cutoff showName rest
          else notifySeasonLines today cutoff showName rest
        | none => notifySeasonLines today cutoff showName rest
      else notifySeasonLines today cutoff showName rest
    | _, _ => notifySeasonLines today cutoff showName rest

/-- Processing of one TV detail record in `notify_releases`: the record
contributes nothing unless its lower-cased name equals the tracked entry,
otherwise every qualifying season yields a line. -/
def notifyShowLines (today cutoff : Date) (highlight : String)
    (d : TvDetails) : List SeriesLine :=
  if pyLower d.name ≠ highlight then []
  else notifySeasonLines today cutoff d.name d.seasons

/-- Inner loop of the series part of `notify_releases` over one search
response; a failing detail fetch raises and the exception propagates
(there is no `try`/`except` anywhere in `notify_releases`). -/
def notifyShows (p : Provider) (today cutoff : Date) (highlight : String) :
    List Nat → Except Unit (List SeriesLine)
  | [] => .ok []
  | id :: rest =>
    match p.tvDetails id with
    | .error e => .error e
    | .ok d =>
      match notifyShows p today cutoff highlight rest with
      | .error e => .error e
      | .ok ls => .ok (notifyShowLines today cutoff highlight d ++ ls)

/-- Series part of `notify_releases` over the tracked series set. -/
def notifySeriesAll (p : Provider) (today cutoff : Date) :
    List String → Except Unit (List SeriesLine)
  | [] => .ok []
  | t :: rest =>
    match p.searchTv t with
    | .error e => .error e
    | .ok ids =>
      match notifyShows p today cutoff t ids with
      | .error e => .error e
      | .ok ls =>
        match notifySeriesAll p today cutoff rest with
        | .error e => .error e
        | .ok more => .ok (ls ++ more)

/-- Movie part of `notify_releases` for one search response (lines
477-488): exact lower-cased title match, then a truthy `release_date`
that parses into the window. -/
def notifyMovieLines (today cutoff : Date) (highlight : String) :
    List TmdbMovie → List MovieLine
  | [] => []
  | m :: rest =>
    if pyLower m.title ≠ highlight then notifyMovieLines today cutoff highlight rest
    else
      match m.release_date with
      | some rd =>
        if rd ≠ "" then
          match parseDate rd with
          | some d =>
            if Date.le today d && Date.le d cutoff then
              ⟨m.title, rd⟩ :: notifyMovieLines today cutoff highlight rest
            else notifyMovieLines today cutoff highlight rest
          | none => notifyMovieLines today cutoff highlight rest
        else notifyMovieLines today cutoff highlight rest
      | none => notifyMovieLines today cutoff highlight rest

/-- Movie part of `notify_releases` over the tracked movies set. -/
def notifyMoviesAll (p : Provider) (today cutoff : Date) :
    List String → Except Unit (List MovieLine)
  | [] => .ok []
  | t :: rest =>
    match p.searchMovie t with
    | .error e => .error e
    | .ok ms =>
      match notifyMoviesAll p today cutoff rest with
      | .error e => .error e
      | .ok more => .ok (notifyMovieLines today cutoff t ms ++ more)

/-- `NOTIFY_INTERVAL = 24 * 60 * 60` (line 437). -/
def NOTIFY_INTERVAL : Nat := 24 * 60 * 60

/-- `NOTIFY_LOOKAHEAD_DAYS = 3` (line 438). -/
def NOTIFY_LOOKAHEAD_DAYS : Nat := 3

/-- One firing of `notify_releases`: both matching passes run with
`cutoff = now + timedelta(days=NOTIFY_LOOKAHEAD_DAYS)`; a message is sent
iff `upcoming_series or upcoming_movies` is truthy (`some` carries the
lines of the combined message, `none` is the silent tick). -/
def notifyTick (p : Provider) (today : Date)
    (tracked_series tracked_movies : List String) :
    Except Unit (Option (List SeriesLine × List MovieLine)) :=
  match notifySeriesAll p today (addDays today NOTIFY_LOOKAHEAD_DAYS) tracked_series with
  | .error e => .error e
  | .ok ls =>
    match notifyMoviesAll p today (addDays today NOTIFY_LOOKAHEAD_DAYS) tracked_movies with
    | .error e => .error e
    | .ok lm => .ok (if ls ≠ [] ∨ lm ≠ [] then some (ls, lm) else none)

/-- A job in the `JobQueue`, with the attributes `run_repeating` is given
in `notifyon` (lines 856-862). -/
structure Job where
  name : String
  interval : Nat
  first : Nat
  chat_id : Int
deriving DecidableEq, Repr

/-- The job queue: the multiset of currently scheduled jobs, in
registration order. -/
structure JQ where
  jobs : List Job
deriving DecidableEq, Repr

/-- Embedding of `job_queue.get_jobs_by_name(name)`. -/
def getJobsByName (q : JQ) (n : String) : List Job :=
  q.jobs.filter (fun j => j.name = n)

/-- Embedding of `/notifyon` (lines 845-863): every job registered under
`str(chat_id)` is removed (`schedule_removal`), then one new repeating job
with `interval = NOTIFY_INTERVAL`, `first = 0` and that name is installed. -/
def notifyon (q : JQ) (chat_id : Int) : JQ :=
  { jobs := q.jobs.filter (fun j => j.name ≠ toString chat_id) ++
      [⟨toString chat_id, NOTIFY_INTERVAL, 0, chat_id⟩] }

/-- Embedding of `/notifyoff` (lines 865-874): every job registered under
`str(chat_id)` is removed; nothing is installed. -/
def notifyoff (q : JQ) (chat_id : Int) : JQ :=
  { jobs := q.jobs.filter (fun j => j.name ≠ toString chat_id) }

/-- The four process-wide sets.  Python sets are modelled as lists (the
theorems quantify over them, covering any concrete iteration order);
`set.add` appends when absent, `set.remove`/`discard` erases. -/
structure Sets where
  series : List String
  movies : List String
  fav_series : List String
  fav_movies : List String
deriving DecidableEq, Repr

/-- In-memory sets together with the durable file contents (`none` when
`highlight_lists.json` has never been written). -/
structure BotState where
  sets : Sets
  durable : Option Sets
deriving DecidableEq, Repr

/-- Embedding of `save_highlight_lists` (lines 343-350): full overwrite of
the file with the four current in-memory sets. -/
def save_highlight_lists (s : BotState) : BotState :=
  { s with durable := some s.sets }

/-- Addition to a Python set: append if not already an element. -/
def setAdd (l : List String) (e : String) : List String :=
  if e ∈ l then l else l ++ [e]

/-- Loop body of `addfaveseries` / `addfavemovie` (lines 888-893 and
916-921): each entry already present under case-insensitive comparison is
reported in `already`, the others are inserted and reported in `added`. -/
def addFaveLoop (favs added already : List String) :
    List String → List String × List String × List String
  | [] => (favs, added, already)
  | e :: rest =>
    if favs.any (fun s => pyLower s = pyLower e) then
      addFaveLoop favs added (already ++ [e]) rest
    else
      addFaveLoop (setAdd favs e) (added ++ [e]) already rest

/-- Argument preprocessing of the favourite-add handlers:
`[s.strip() for s in name.split('+') if s.strip()]`. -/
def splitPlus (name : String) : List String :=
  ((pySplit name '+').map pyTrim).filter (fun s => s ≠ "")

/-- First element of a list matching a predicate, as the
`for s in favourite_series: if ...: found = s; break` scan. -/
def findCaseInsensitive (l : List String) (name : String) : Option String :=
  l.find? (fun s => pyLower s = pyLower name)

/-- The mutating Highlight Store operations reachable from the chat
handlers, with their (already joined) string argument. -/
inductive StoreOp where
  | addSeriesChoice (entry : String)
  | addMovieChoice (entry : String)
  | removeSeries (title : String)
  | removeMovie (title : String)
  | addFaveSeries (name : String)
  | addFaveMovie (name : String)
  | removeFaveSeries (name : String)
  | removeFaveMovie (name : String)
deriving DecidableEq, Repr

/-- State transition of each mutating handler.
`addSeriesChoice`/`addMovieChoice` embed lines 385-393 / 427-435: the
chosen entry is lower-cased, added, and `save_highlight_lists()` runs.
`removeSeries`/`removeMovie` embed lines 652-674: the argument is trimmed
and lower-cased; an absent title returns without saving, otherwise the
title is removed and the save runs.
`addFaveSeries`/`addFaveMovie` embed lines 876-930: an empty (trimmed)
name returns early; otherwise the `+`-separated entries run through
`addFaveLoop` and the save runs unconditionally afterwards.
`removeFaveSeries`/`removeFaveMovie` embed lines 932-964: the first
case-insensitive match is removed and saved; no match returns without
saving. -/
def applyOp (op : StoreOp) (st : BotState) : BotState :=
  match op with
  | .addSeriesChoice entry =>
    save_highlight_lists
      { st with sets := { st.sets with series := setAdd st.sets.series (pyLower entry) } }
  | .addMovieChoice entry =>
    save_highlight_lists
      { st with sets := { st.sets with movies := setAdd st.sets.movies (pyLower entry) } }
  | .removeSeries title =>
    let t := pyLower (pyTrim title)
    if t ∈ st.sets.series then
      save_highlight_lists
        { st with sets := { st.sets with series := st.sets.series.erase t } }
    else st
  | .removeMovie title =>
    let t := pyLower (pyTrim title)
    if t ∈ st.sets.movies then
      save_highlight_lists
        { st with sets := { st.sets with movies := st.sets.movies.erase t } }
    else st
  | .addFaveSeries name =>
    let n := pyTrim name
    if n = "" then st
    else
      save_highlight_lists
        { st with sets := { st.sets with
            fav_series := (addFaveLoop st.sets.fav_series [] [] (splitPlus n)).1 } }
  | .addFaveMovie name =>
    let n := pyTrim name
    if n = "" then st
    else
      save_highlight_lists
        { st with sets := { st.sets with
            fav_movies := (addFaveLoop st.sets.fav_movies [] [] (splitPlus n)).1 } }
  | .removeFaveSeries name =>
    let n := pyTrim name
    match findCaseInsensitive st.sets.fav_series n with
    | some found =>
      save_highlight_lists
        { st with sets := { st.sets with fav_series := st.sets.fav_series.erase found } }
    | none => st
  | .removeFaveMovie name =>
    let n := pyTrim name
    match findCaseInsensitive st.sets.fav_movies n with
    | some found =>
      save_highlight_lists
        { st with sets := { st.sets with fav_movies := st.sets.fav_movies.erase found } }
    | none => st

/-- Contents of `highlight_lists.json` as a JSON object: each of the four
keys may be present (an array of strings) or absent. -/
structure StoreFile where
  series : Option (List String)
  movies : Option (List String)
  favourite_series : Option (List String)
  favourite_movies : Option (List String)
deriving DecidableEq, Repr

/-- Embedding of `load_highlight_lists` (lines 331-341): with no file all
four components are absent; with a file, each component is
`set(data.get(key, []))` — a MISSING key yields the empty set, not an
absent component. -/
def load_highlight_lists (file : Option StoreFile) :
    Option (List String) × Option (List String) ×
    Option (List String) × Option (List String) :=
  match file with
  | none => (none, none, none, none)
  | some f =>
    (some (f.series.getD []), some (f.movies.getD []),
     some (f.favourite_series.getD []), some (f.favourite_movies.getD []))

/-- Embedding of the startup assignment (lines 982-992): each loaded
component replaces the seed default only when it is not `None`. -/
def startupSets (file : Option StoreFile) (seeds : Sets) : Sets :=
  match load_highlight_lists file with
  | (ls, lm, lfs, lfm) =>
    { series := ls.getD seeds.series
      movies := lm.getD seeds.movies
      fav_series := lfs.getD seeds.fav_series
      fav_movies := lfm.getD seeds.fav_movies }

/-- The in-memory seed of `highlight_titles` (lines 295-312). -/
def seed_highlight_titles : List String :=
  ["love death robots", "last of us", "black mirror", "walking dead",
   "severance", "you", "daredevil: born again", "rick & morty",
   "rick and morty", "the umbrella academy", "the witcher", "euphoria",
   "harley quinn", "loki", "stranger things", "arcane"]

/-- The in-memory seed of `highlight_movies` (lines 314-325). -/
def seed_highlight_movies : List String :=
  ["dune", "oppenheimer", "barbie", "spider-man: across the spider-verse",
   "the marvels", "wonka", "killers of the flower moon",
   "the hunger games: the ballad of songbirds & snakes", "napoleon",
   "the creator"]

/-- The tracked entry stored by the selection conversation
(`addseries_choice`, lines 385-390): the chosen record's name with the
first four characters of its first-air-date (default "TBA") in
parentheses, lower-cased. -/
def addseriesEntry (name : String) (first_air_date : Option String) : String :=
  pyLower (name ++ " (" ++ ⟨(first_air_date.getD "TBA").data.take 4⟩ ++ ")")

/-- Acceptance predicate realised by the guards of the `/series` season
scan: truthy air date and season number, `season_number == 1 or > 1`,
parseable date inside the window. -/
def seasonAccept (today cutoff : Date) (s : TvSeason) : Bool :=
  match s.air_date, s.season_number with
  | some ad, some sn =>
    if ad ≠ "" ∧ sn ≠ 0 ∧ (sn == 1 || sn > 1) then
      match parseDate ad with
      | some d => Date.le today d && Date.le d cutoff
      | none => false
    else false
  | _, _ => false

/-- Acceptance predicate realised by the guards of the `notify_releases`
season scan (no `== 1 or > 1` conjunct). -/
def notifyAccept (today cutoff : Date) (s : TvSeason) : Bool :=
  match s.air_date, s.season_number with
  | some ad, some sn =>
    if ad ≠ "" ∧ sn ≠ 0 then
      match parseDate ad with
      | some d => Date.le today d && Date.le d cutoff
      | none => false
    else false
  | _, _ => false

/-- Fixture: a detail record whose only qualifying season is season 2. -/
def c1show : TvDetails :=
  ⟨"a", [⟨some "2025-07-10", some 2⟩], some 5, none⟩

/-- Fixture: a provider whose search raises (e.g. times out) for the
tracked title "b" and succeeds for every other title. -/
def c1provider : Provider where
  searchTv := fun t => if t = "b" then .error () else .ok [1]
  tvDetails := fun _ => .ok c1show
  searchMovie := fun _ => .ok []

/-- Fixture: a show with two distinct seasons airing inside the 3-day
notification window. -/
def c2show : TvDetails :=
  ⟨"last of us",
   [⟨some "2025-07-01", some 1⟩, ⟨some "2025-07-02", some 2⟩], none, none⟩

/-- Fixture: a provider resolving every search to `c2show`. -/
def c2provider : Provider where
  searchTv := fun _ => .ok [1]
  tvDetails := fun _ => .ok c2show
  searchMovie := fun _ => .ok []

/-- Fixture: candidate with fractional popularity 10.1 and the earlier
air date. -/
def c4candA : Candidate :=
  ⟨⟨"a", [], some ⟨101, 10, by norm_num, by norm_num⟩, none⟩, "new", "2025-01-01"⟩

/-- Fixture: candidate with fractional popularity 10.9 and the later
air date. -/
def c4candB : Candidate :=
  ⟨⟨"b", [], some ⟨109, 10, by norm_num, by norm_num⟩, none⟩, "new", "2025-01-02"⟩

/-- Fixture: a provider returning the movie "Dune" releasing on
2025-07-11 for every movie search. -/
def c6provider : Provider where
  searchTv := fun _ => .ok []
  tvDetails := fun _ => .error ()
  searchMovie := fun _ => .ok [⟨"Dune", some "2025-07-11"⟩]

/-- C5: the enable action first removes every job registered under the
chat id and installs exactly one recurring job (first fire immediate,
interval 24 hours), so enabling twice yields the same queue as enabling
once; the disable action removes the jobs of that chat id and is a no-op
when none exists. -/
theorem c5_scheduler_at_most_one_job (q : JQ) (cid : Int) :
    getJobsByName (notifyon q cid) (toString cid) =
      [⟨toString cid, NOTIFY_INTERVAL, 0, cid⟩] ∧
    notifyon (notifyon q cid) cid = notifyon q cid ∧
    getJobsByName (notifyoff q cid) (toString cid) = [] ∧
    (getJobsByName q (toString cid) = [] → notifyoff q cid = q) ∧
    NOTIFY_INTERVAL = 24 * 60 * 60 := by
  refine ⟨?_, ?_, ?_, ?_, rfl⟩
  · simp [getJobsByName, notifyon, List.filter_append, List.filter_filter]
  · simp [notifyon, List.filter_append, List.filter_filter]
  · simp [getJobsByName, notifyoff, List.filter_filter]
  · intro h
    obtain ⟨jobs⟩ := q
    simp only [getJobsByName] at h
    refine congrArg JQ.mk (List.filter_eq_self.mpr ?_)
    intro j hj
    have := List.filter_eq_nil_iff.mp h j hj
    simp only [decide_eq_true_eq] at this ⊢
    simpa using this

/-- Closed instance of `c5_scheduler_at_most_one_job`: enabling on a queue
already holding two jobs for chat id 42 leaves exactly one, and disabling
on a queue with no job for 42 changes nothing. -/
theorem c5_scheduler_at_most_one_job_witness :
    getJobsByName (notifyon ⟨[⟨"42", 100, 5, 42⟩, ⟨"42", 200, 7, 42⟩, ⟨"7", 86400, 0, 7⟩]⟩ 42)
        (toString (42 : Int)) = [⟨toString (42 : Int), NOTIFY_INTERVAL, 0, 42⟩] ∧
    notifyoff (⟨[⟨"7", 86400, 0, 7⟩]⟩ : JQ) 42 = ⟨[⟨"7", 86400, 0, 7⟩]⟩ :=
  ⟨(c5_scheduler_at_most_one_job ⟨[⟨"42", 100, 5, 42⟩, ⟨"42", 200, 7, 42⟩, ⟨"7", 86400, 0, 7⟩]⟩ 42).1,
   (c5_scheduler_at_most_one_job (⟨[⟨"7", 86400, 0, 7⟩]⟩ : JQ) 42).2.2.2.1 (by decide)⟩

/-- C7: every mutating Highlight Store operation that actually changes one
of the four sets runs `save_highlight_lists` before returning, so the
durable copy afterwards equals the in-memory sets. -/
theorem c7_mutation_saves (op : StoreOp) (st : BotState)
    (h : (applyOp op st).sets ≠ st.sets) :
    (applyOp op st).durable = some (applyOp op st).sets := by
  cases op with
  | addSeriesChoice e => rfl
  | addMovieChoice e => rfl
  | removeSeries t =>
    by_cases hc : pyLower (pyTrim t) ∈ st.sets.series
    · simp [applyOp, hc, save_highlight_lists]
    · simp [applyOp, hc] at h
  | removeMovie t =>
    by_cases hc : pyLower (pyTrim t) ∈ st.sets.movies
    · simp [applyOp, hc, save_highlight_lists]
    · simp [applyOp, hc] at h
  | addFaveSeries n =>
    by_cases hc : pyTrim n = ""
    · simp [applyOp, hc] at h
    · simp [applyOp, hc, save_highlight_lists]
  | addFaveMovie n =>
    by_cases hc : pyTrim n = ""
    · simp [applyOp, hc] at h
    · simp [applyOp, hc, save_highlight_lists]
  | removeFaveSeries n =>
    cases hf : findCaseInsensitive st.sets.fav_series (pyTrim n) with
    | some found => simp [applyOp, hf, save_highlight_lists]
    | none => simp [applyOp, hf] at h
  | removeFaveMovie n =>
    cases hf : findCaseInsensitive st.sets.fav_movies (pyTrim n) with
    | some found => simp [applyOp, hf, save_highlight_lists]
    | none => simp [applyOp, hf] at h

/-- Closed instance of `c7_mutation_saves`: removing the tracked series
"Dune" changes the series set and leaves the durable copy equal to the
new in-memory sets. -/
theorem c7_mutation_saves_witness :
    (applyOp (.removeSeries "Dune") ⟨⟨["dune"], [], [], []⟩, none⟩).sets ≠
      (⟨⟨["dune"], [], [], []⟩, none⟩ : BotState).sets ∧
    (applyOp (.removeSeries "Dune") ⟨⟨["dune"], [], [], []⟩, none⟩).durable =
      some (applyOp (.removeSeries "Dune") ⟨⟨["dune"], [], [], []⟩, none⟩).sets :=
  ⟨by decide, c7_mutation_saves (.removeSeries "Dune") ⟨⟨["dune"], [], [], []⟩, none⟩ (by decide)⟩

/-- C8 counterexample: with a store file that contains only the "series"
key, startup does NOT keep the seed default for the movies set (as the
claim states); it resets the movies set to the empty set. -/
theorem c8_counterexample :
    (startupSets (some ⟨some ["x"], none, none, none⟩)
        ⟨seed_highlight_titles, seed_highlight_movies, [], []⟩).movies = [] ∧
    seed_highlight_movies ≠ [] :=
  ⟨rfl, by decide⟩

/-- C8 amended: load returns all four components absent when no store
file exists (so startup keeps the seeds), and when the file exists every
key is read with an empty-list default — a key present in the file
replaces the seed, and a MISSING key yields the empty set rather than the
seed. -/
theorem c8_load_and_startup (seeds : Sets) (f : StoreFile) :
    load_highlight_lists none = (none, none, none, none) ∧
    startupSets none seeds = seeds ∧
    startupSets (some f) seeds =
      ⟨f.series.getD [], f.movies.getD [], f.favourite_series.getD [],
       f.favourite_movies.getD []⟩ :=
  ⟨rfl, rfl, rfl⟩

/-- C9: adding an entry that is already present in a favourite set under
case-insensitive comparison reports it as already present and leaves the
set unchanged. -/
theorem c9_fave_add_idempotent (favs : List String) (e : String)
    (h : ∃ s ∈ favs, pyLower s = pyLower e) :
    addFaveLoop favs [] [] [e] = (favs, [], [e]) := by
  obtain ⟨s, hs, hlow⟩ := h
  have ha : favs.any (fun s => pyLower s = pyLower e) = true :=
    List.any_eq_true.mpr ⟨s, hs, by simp [hlow]⟩
  simp [addFaveLoop, ha]

/-- Closed instance of `c9_fave_add_idempotent`: re-adding "the witcher"
to a favourites set already holding "The Witcher" changes nothing and is
reported as already present. -/
theorem c9_fave_add_idempotent_witness :
    addFaveLoop ["The Witcher"] [] [] ["the witcher"] =
      (["The Witcher"], [], ["the witcher"]) :=
  c9_fave_add_idempotent ["The Witcher"] "the witcher"
    ⟨"The Witcher", by decide, by decide⟩

/-- C10: the matcher's name filter is plain string equality between the
lower-cased provider name and the stored tracked entry, so a tracked
entry of the lower-cased "name (year)" form stored by the selection
conversation (`addseriesEntry`) never matches a provider record whose
lower-cased name differs from it — in particular any provider name
lacking the parenthesized year suffix — and such a record produces
neither a `/series` release candidate nor a notification line. -/
theorem c10_year_suffix_entry_rejected (n : String) (fad : Option String)
    (d : TvDetails) (today cutoff : Date)
    (h : pyLower d.name ≠ addseriesEntry n fad) :
    processShow today cutoff (addseriesEntry n fad) d = none ∧
    notifyShowLines today cutoff (addseriesEntry n fad) d = [] := by
  constructor
  · simp [processShow, h]
  · simp [notifyShowLines, h]

/-- Closed instance of `c10_year_suffix_entry_rejected`: the stored entry
for the show "Dune" first aired 2021-09-15 is "dune (2021)", and the
provider record named plain "Dune" — even with a season qualifying by
date — yields no candidate and no notification line for it. -/
theorem c10_year_suffix_entry_rejected_witness :
    addseriesEntry "Dune" (some "2021-09-15") = "dune (2021)" ∧
    pyLower "Dune" ≠ addseriesEntry "Dune" (some "2021-09-15") ∧
    (processShow ⟨2025, 7, 1⟩ ⟨2025, 7, 4⟩ (addseriesEntry "Dune" (some "2021-09-15"))
        ⟨"Dune", [⟨some "2025-07-02", some 1⟩], none, none⟩ = none ∧
     notifyShowLines ⟨2025, 7, 1⟩ ⟨2025, 7, 4⟩ (addseriesEntry "Dune" (some "2021-09-15"))
        ⟨"Dune", [⟨some "2025-07-02", some 1⟩], none, none⟩ = []) :=
  ⟨by decide, by decide,
   c10_year_suffix_entry_rejected "Dune" (some "2021-09-15")
     ⟨"Dune", [⟨some "2025-07-02", some 1⟩], none, none⟩ ⟨2025, 7, 1⟩ ⟨2025, 7, 4⟩
     (by decide)⟩

/-- C6: a tracked movie whose provider record matches the tracked entry
exactly (case-insensitively) but whose release date falls outside the
3-day lookahead window contributes zero candidate lines, and the
notification tick with no other sources stays silent: the title match
alone is insufficient. -/
theorem c6_match_outside_window_is_silent (p : Provider) (today : Date)
    (m : TmdbMovie) (rd : String) (d : Date)
    (hsearch : p.searchMovie "dune" = .ok [m])
    (htitle : m.title = "Dune")
    (hrd : m.release_date = some rd)
    (hparse : parseDate rd = some d)
    (hout : Date.le d (addDays today NOTIFY_LOOKAHEAD_DAYS) = false) :
    notifyMovieLines today (addDays today NOTIFY_LOOKAHEAD_DAYS) "dune" [m] = [] ∧
    notifyTick p today [] ["dune"] = .ok none := by
  obtain ⟨title, rdate⟩ := m
  simp only at htitle hrd
  subst htitle
  subst hrd
  have hne : rd ≠ "" := by
    intro h0
    subst h0
    simp [parseDate, splitChar] at hparse
  have hname : pyLower "Dune" = "dune" := rfl
  have hml : notifyMovieLines today (addDays today NOTIFY_LOOKAHEAD_DAYS) "dune"
      [⟨"Dune", some rd⟩] = [] := by
    simp [notifyMovieLines, hname, hne, hparse, hout]
  refine ⟨hml, ?_⟩
  simp [notifyTick, notifySeriesAll, notifyMoviesAll, hsearch, hml]

/-- Closed instance of `c6_match_outside_window_is_silent`: with
tracked_movies = ["dune"], today 2025-07-01 and the provider movie "Dune"
releasing on 2025-07-11 (10 days out, horizon 3), no candidate is
produced and the tick sends nothing. -/
theorem c6_match_outside_window_is_silent_witness :
    notifyMovieLines ⟨2025, 7, 1⟩ (addDays ⟨2025, 7, 1⟩ NOTIFY_LOOKAHEAD_DAYS) "dune"
      [⟨"Dune", some "2025-07-11"⟩] = [] ∧
    notifyTick c6provider ⟨2025, 7, 1⟩ [] ["dune"] = .ok none :=
  c6_match_outside_window_is_silent c6provider ⟨2025, 7, 1⟩
    ⟨"Dune", some "2025-07-11"⟩ "2025-07-11" ⟨2025, 7, 11⟩
    rfl rfl rfl (by decide) (by decide)

/-- C1 counterexample: with three tracked titles where the provider call
for "b" raises (simulated timeout), the whole `/series` invocation aborts
into the generic error reply and yields NO candidates — although the
title "a" on its own would have produced its candidate.  The error is not
caught per title. -/
theorem c1_counterexample :
    seriesResult c1provider ["a", "b", "c"] ⟨2025, 7, 1⟩ = none ∧
    seriesResult c1provider ["a", "c"] ⟨2025, 7, 1⟩ =
      some [⟨c1show, "season_2", "2025-07-10"⟩] := by
  constructor
  · rfl
  · rfl

/-- C1 amended: a provider error while resolving any tracked title aborts
the whole matching invocation — `matchAll` propagates the exception and
the `/series` handler, whose `try`/`except` wraps the entire loop,
replaces the whole result with the generic error reply (`none`); no
per-title skipping happens. -/
theorem c1_provider_error_aborts_run (p : Provider) (titles : List String)
    (today : Date) (t : String) (ht : t ∈ titles)
    (herr : p.searchTv t = .error ()) :
    matchAll p today (addDays today 120) titles = .error () ∧
    seriesResult p titles today = none := by
  have key : ∀ ts : List String, t ∈ ts →
      matchAll p today (addDays today 120) ts = .error () := by
    intro ts
    induction ts with
    | nil => intro hmem; cases hmem
    | cons x rest ih =>
      intro hmem
      simp only [matchAll]
      cases hx : p.searchTv x with
      | error e => cases e; rfl
      | ok ids =>
        have hrest : t ∈ rest := by
          rcases List.mem_cons.mp hmem with h | h
          · subst h
            rw [hx] at herr
            cases herr
          · exact h
        cases hms : matchShows p today (addDays today 120) x ids with
        | error e =>
          cases e
          simp only [hms]
        | ok cs => simp only [hms, ih hrest]
  refine ⟨key titles ht, ?_⟩
  simp only [seriesResult, key titles ht]

/-- Closed instance of `c1_provider_error_aborts_run` at the failing
fixture. -/
theorem c1_provider_error_aborts_run_witness :
    matchAll c1provider ⟨2025, 7, 1⟩ (addDays ⟨2025, 7, 1⟩ 120) ["a", "b", "c"] =
      .error () ∧
    seriesResult c1provider ["a", "b", "c"] ⟨2025, 7, 1⟩ = none :=
  c1_provider_error_aborts_run c1provider ["a", "b", "c"] ⟨2025, 7, 1⟩ "b"
    (by decide) rfl

/-- C2 counterexample: in the notification matcher (`notify_releases`),
a single resolved show with TWO seasons airing inside the window yields
TWO candidate lines in one invocation — the season loop there has no
`break`, so "at most one candidate per show per invocation" fails. -/
theorem c2_counterexample :
    notifySeriesAll c2provider ⟨2025, 7, 1⟩
        (addDays ⟨2025, 7, 1⟩ NOTIFY_LOOKAHEAD_DAYS) ["last of us"] =
      .ok [⟨"last of us", 1, "2025-07-01"⟩, ⟨"last of us", 2, "2025-07-02"⟩] := rfl

/-- C2 amended: in the `/series` matcher the season scan accepts exactly
the FIRST season (in provider list order) with a truthy (nonzero) season
number whose air date is non-empty, parses, and falls inside the window —
hence at most one candidate per show there — while the `notify_releases`
scan has no `break` and accepts EVERY such season. -/
theorem c2_first_qualifying_season (today cutoff : Date) (showName : String)
    (ss : List TvSeason) :
    seasonHit today cutoff ss =
      ((ss.find? (seasonAccept today cutoff)).map
        (fun s => (s.season_number.getD 0, s.air_date.getD ""))) ∧
    notifySeasonLines today cutoff showName ss =
      (ss.filter (notifyAccept today cutoff)).map
        (fun s => ⟨showName, s.season_number.getD 0, s.air_date.getD ""⟩) := by
  constructor
  · induction ss with
    | nil => rfl
    | cons s rest ih =>
      obtain ⟨ado, sno⟩ := s
      rcases ado with _ | ad
      · rcases sno with _ | sn
        · rw [List.find?_cons_of_neg _ (by simp [seasonAccept])]
          simpa [seasonHit] using ih
        · rw [List.find?_cons_of_neg _ (by simp [seasonAccept])]
          simpa [seasonHit] using ih
      · rcases sno with _ | sn
        · rw [List.find?_cons_of_neg _ (by simp [seasonAccept])]
          simpa [seasonHit] using ih
        · by_cases h1 : ad ≠ "" ∧ sn ≠ 0 ∧ (sn == 1 || sn > 1) = true
          · cases hp : parseDate ad with
            | none =>
              have hacc : seasonAccept today cutoff ⟨some ad, some sn⟩ = false := by
                simp only [seasonAccept]
                rw [if_pos h1, hp]
              rw [List.find?_cons_of_neg _ (by simp [hacc])]
              simp only [seasonHit]
              rw [if_pos h1, hp]
              exact ih
            | some d =>
              by_cases hw : (Date.le today d && Date.le d cutoff) = true
              · have hacc : seasonAccept today cutoff ⟨some ad, some sn⟩ = true := by
                  simp only [seasonAccept]
                  rw [if_pos h1, hp]
                  exact hw
                rw [List.find?_cons_of_pos _ hacc]
                simp only [seasonHit]
                rw [if_pos h1, hp]
                show (if Date.le today d && Date.le d cutoff then some (sn, ad)
                  else seasonHit today cutoff rest) = _
                rw [if_pos hw]
                rfl
              · have hacc : seasonAccept today cutoff ⟨some ad, some sn⟩ = false := by
                  simp only [seasonAccept]
                  rw [if_pos h1, hp]
                  simpa using hw
                rw [List.find?_cons_of_neg _ (by simp [hacc])]
                simp only [seasonHit]
                rw [if_pos h1, hp]
                show (if Date.le today d && Date.le d cutoff then some (sn, ad)
                  else seasonHit today cutoff rest) = _
                rw [if_neg hw]
                exact ih
          · have hacc : seasonAccept today cutoff ⟨some ad, some sn⟩ = false := by
              simp only [seasonAccept]
              rw [if_neg h1]
            rw [List.find?_cons_of_neg _ (by simp [hacc])]
            simp only [seasonHit]
            rw [if_neg h1]
            exact ih
  · induction ss with
    | nil => rfl
    | cons s rest ih =>
      obtain ⟨ado, sno⟩ := s
      rcases ado with _ | ad
      · rcases sno with _ | sn
        · rw [List.filter_cons, if_neg (by simp [notifyAccept])]
          simpa [notifySeasonLines] using ih
        · rw [List.filter_cons, if_neg (by simp [notifyAccept])]
          simpa [notifySeasonLines] using ih
      · rcases sno with _ | sn
        · rw [List.filter_cons, if_neg (by simp [notifyAccept])]
          simpa [notifySeasonLines] using ih
        · by_cases h1 : ad ≠ "" ∧ sn ≠ 0
          · cases hp : parseDate ad with
            | none =>
              have hacc : notifyAccept today cutoff ⟨some ad, some sn⟩ = false := by
                simp only [notifyAccept]
                rw [if_pos h1, hp]
              rw [List.filter_cons, if_neg (by simp [hacc])]
              simp only [notifySeasonLines]
              rw [if_pos h1, hp]
              exact ih
            | some d =>
              by_cases hw : (Date.le today d && Date.le d cutoff) = true
              · have hacc : notifyAccept today cutoff ⟨some ad, some sn⟩ = true := by
                  simp only [notifyAccept]
                  rw [if_pos h1, hp]
                  exact hw
                rw [List.filter_cons, if_pos hacc]
                simp only [notifySeasonLines]
                rw [if_pos h1, hp]
                show (if Date.le today d && Date.le d cutoff then
                    ⟨showName, sn, ad⟩ :: notifySeasonLines today cutoff showName rest
                  else notifySeasonLines today cutoff showName rest) = _
                rw [if_pos hw, List.map_cons]
                exact congrArg (List.cons _) ih
              · have hacc : notifyAccept today cutoff ⟨some ad, some sn⟩ = false := by
                  simp only [notifyAccept]
                  rw [if_pos h1, hp]
                  simpa using hw
                rw [List.filter_cons, if_neg (by simp [hacc])]
                simp only [notifySeasonLines]
                rw [if_pos h1, hp]
                show (if Date.le today d && Date.le d cutoff then
                    ⟨showName, sn, ad⟩ :: notifySeasonLines today cutoff showName rest
                  else notifySeasonLines today cutoff showName rest) = _
                rw [if_neg hw]
                exact ih
          · have hacc : notifyAccept today cutoff ⟨some ad, some sn⟩ = false := by
              simp only [notifyAccept]
              rw [if_neg h1]
            rw [List.filter_cons, if_neg (by simp [hacc])]
            simp only [notifySeasonLines]
            rw [if_neg h1]
            exact ih

/-- Count characterization of the insertion-ordered dict dedup: a key
already seen contributes nothing, otherwise each key occurring in the
input is kept exactly once. -/
theorem dedupeAux_countP (k : String × String × String) :
    ∀ (cs : List Candidate) (seen : List (String × String × String)),
      (dedupeAux seen cs).countP (fun c => dedupKey c = k) =
        if k ∈ seen then 0
        else if cs.any (fun c => dedupKey c = k) then 1 else 0 := by
  intro cs
  induction cs with
  | nil => intro seen; simp [dedupeAux]
  | cons c rest ih =>
    intro seen
    by_cases hc : dedupKey c ∈ seen
    · rw [show dedupeAux seen (c :: rest) = dedupeAux seen rest from by
        simp [dedupeAux, hc]]
      rw [ih seen]
      by_cases hk : k ∈ seen
      · simp [hk]
      · have hck : ¬ (dedupKey c = k) := fun h => hk (h ▸ hc)
        simp [hk, hck]
    · rw [show dedupeAux seen (c :: rest) = c :: dedupeAux (dedupKey c :: seen) rest from by
        simp [dedupeAux, hc]]
      rw [List.countP_cons, ih (dedupKey c :: seen)]
      by_cases hk : dedupKey c = k
      · subst hk
        simp [hc]
      · have hk' : ¬ (k = dedupKey c) := fun h => hk h.symm
        simp [hk, hk']

/-- C3: the `/series` matcher output (dedup then sort) contains exactly
one candidate for every (lower-cased name, release-kind, air-date) triple
occurring among the scanned candidates and none for any other triple: a
show resolved twice with the same name, kind and date collapses to one
candidate, while the same title under a different release-kind or date is
counted separately (no collision). -/
theorem c3_dedup_exactly_one_per_triple (cs : List Candidate)
    (k : String × String × String) :
    (sortCands (dedupe cs)).countP (fun c => dedupKey c = k) =
      if cs.any (fun c => dedupKey c = k) then 1 else 0 := by
  rw [show sortCands (dedupe cs) = (dedupe cs).mergeSort candLe from rfl,
    (List.mergeSort_perm (dedupe cs) candLe).countP_eq]
  have := dedupeAux_countP k cs []
  simpa [dedupe] using this

/-- C4 counterexample: the sort key truncates popularity with `int()`, so
the candidate with numeric popularity 10.1 and the earlier date sorts
BEFORE the candidate with numeric popularity 10.9 — the output is not
ordered by descending numeric popularity as the claim states. -/
theorem c4_counterexample :
    sortCands [c4candA, c4candB] = [c4candA, c4candB] ∧
    (c4candA.details.popularity.getD 0 < c4candB.details.popularity.getD 0) := by
  constructor
  · decide
  · decide

/-- C4 amended: the matcher output is a permutation of its input sorted
by descending INTEGER-TRUNCATED popularity (missing popularity counting
as zero), with ties under that truncation broken by ascending date
string. -/
theorem charListLe_trans :
    ∀ xs ys zs, charListLe xs ys = true → charListLe ys zs = true →
      charListLe xs zs = true := by
  intro xs
  induction xs with
  | nil => intro ys zs h1 h2; rfl
  | cons a as ih =>
    intro ys zs h1 h2
    cases ys with
    | nil => simp [charListLe] at h1
    | cons b bs =>
      cases zs with
      | nil => simp [charListLe] at h2
      | cons c cs =>
        simp only [charListLe] at h1 h2 ⊢
        split at h1
        · split at h2
          · rw [if_pos (by omega)]
          · split at h2
            · exact absurd h2 (by simp)
            · rw [if_pos (by omega)]
        · split at h1
          · exact absurd h1 (by simp)
          · split at h2
            · rw [if_pos (by omega)]
            · split at h2
              · exact absurd h2 (by simp)
              · rw [if_neg (by omega), if_neg (by omega)]
                exact ih bs cs h1 h2

theorem charListLe_total :
    ∀ xs ys, (charListLe xs ys || charListLe ys xs) = true := by
  intro xs
  induction xs with
  | nil => intro ys; rfl
  | cons a as ih =>
    intro ys
    cases ys with
    | nil => rfl
    | cons b bs =>
      by_cases h1 : a.toNat < b.toNat
      · have e1 : charListLe (a :: as) (b :: bs) = true := by
          simp only [charListLe]
          rw [if_pos h1]
        rw [e1, Bool.true_or]
      · by_cases h2 : b.toNat < a.toNat
        · have e2 : charListLe (b :: bs) (a :: as) = true := by
            simp only [charListLe]
            rw [if_pos h2]
          rw [e2, Bool.or_true]
        · have e1 : charListLe (a :: as) (b :: bs) = charListLe as bs := by
            simp only [charListLe]
            rw [if_neg h1, if_neg h2]
          have e2 : charListLe (b :: bs) (a :: as) = charListLe bs as := by
            simp only [charListLe]
            rw [if_neg h2, if_neg h1]
          rw [e1, e2]
          exact ih bs

/-- C4 amended: the matcher output is a permutation of its input sorted
by descending INTEGER-TRUNCATED popularity (missing popularity counting
as zero), with ties under that truncation broken by ascending date
string. -/
theorem c4_sorted_by_truncated_popularity (cs : List Candidate) :
    (sortCands cs).Perm cs ∧
    (sortCands cs).Pairwise (fun a b =>
      popKey a < popKey b ∨
        (popKey a = popKey b ∧ strLe (dateKey a) (dateKey b) = true)) := by
  have htrans : ∀ a b c : Candidate,
      candLe a b = true → candLe b c = true → candLe a c = true := by
    intro a b c hab hbc
    simp only [candLe, Bool.or_eq_true, Bool.and_eq_true, decide_eq_true_eq] at hab hbc ⊢
    rcases hab with h1 | ⟨h1, h2⟩ <;> rcases hbc with h3 | ⟨h3, h4⟩
    · exact Or.inl (lt_trans h1 h3)
    · exact Or.inl (h3 ▸ h1)
    · exact Or.inl (h1 ▸ h3)
    · exact Or.inr ⟨h1.trans h3, charListLe_trans _ _ _ h2 h4⟩
  have htotal : ∀ a b : Candidate, (candLe a b || candLe b a) = true := by
    intro a b
    simp only [candLe, Bool.or_eq_true, Bool.and_eq_true, decide_eq_true_eq]
    rcases lt_trichotomy (popKey a) (popKey b) with h | h | h
    · exact Or.inl (Or.inl h)
    · have hor := charListLe_total (dateKey a).data (dateKey b).data
      cases hx : charListLe (dateKey a).data (dateKey b).data
      · rw [hx, Bool.false_or] at hor
        exact Or.inr (Or.inr ⟨h.symm, hor⟩)
      · exact Or.inl (Or.inr ⟨h, hx⟩)
    · exact Or.inr (Or.inl h)
  constructor
  · exact List.mergeSort_perm cs candLe
  · have h := List.sorted_mergeSort htrans htotal cs
    refine h.imp ?_
    intro a b hab
    simpa only [candLe, Bool.or_eq_true, Bool.and_eq_true, decide_eq_true_eq] using hab
